import Mathlib

/-
Shallow embedding of the graceful-shutdown listener/server core of the
plainq/servekit repository (Go), together with its retry/backoff helpers.

Modelling conventions:
- Go `error` values are modelled by `Option GoErr` (`none` = nil error).
  The `GoErr` inductive carries exactly the error shapes that the embedded
  code constructs or compares against: plain `errors.New`-style strings,
  string-typed sentinel constants (`servekit.Error` / `retry.Error`),
  the `context` package sentinels, the transport "already closed" sentinels,
  `fmt.Errorf` wrapping with a single `%w` verb, and the
  `retry.RetryableError` wrapper in both its value and pointer forms
  (the distinction between the two is load-bearing for `errors.As`).
- `errors.Is` and the `errors.As(err, *RetryableError)` check are embedded
  as boolean functions walking the `Unwrap` chain, as the Go runtime does.
  In every comparison the code performs, the target is a comparable
  sentinel value, so structural equality is a faithful model of Go's
  interface equality there.
- Concurrency is resolved by explicit oracle parameters: whether the
  context is observed cancelled at a given check point, whether an orderly
  stop finishes before the shutdown deadline, and which goroutine's error
  an errgroup.Wait reports first when two are non-nil.
- Durations are counted in milliseconds. The float64 arithmetic of the
  backoff strategies is modelled over exact rationals; every concrete
  instance used below stays in a range where float64 arithmetic is exact.
-/

/-- Model of the Go error values that the embedded servekit code builds and
inspects. `retryableVal`/`retryablePtr` distinguish the value type
`retry.RetryableError` from the pointer type `*retry.RetryableError`;
their field `err error` may itself be nil, hence the `Option`. -/
inductive GoErr where
  | errorString (msg : String)
  | sentinel (msg : String)
  | deadlineExceeded
  | canceled
  | errServerClosed
  | errServerStopped
  | wrapf (msg : String) (inner : GoErr)
  | retryableVal (inner : Option GoErr)
  | retryablePtr (inner : Option GoErr)

/-- Structural equality on modelled Go error values. In every comparison the
embedded code performs, the target is a comparable sentinel, and for those
Go's interface equality coincides with structural equality. -/
def goErrBeq : GoErr → GoErr → Bool
  | .errorString a, .errorString b => a == b
  | .sentinel a, .sentinel b => a == b
  | .deadlineExceeded, .deadlineExceeded => true
  | .canceled, .canceled => true
  | .errServerClosed, .errServerClosed => true
  | .errServerStopped, .errServerStopped => true
  | .wrapf m1 e1, .wrapf m2 e2 => m1 == m2 && goErrBeq e1 e2
  | .retryableVal none, .retryableVal none => true
  | .retryableVal (some e1), .retryableVal (some e2) => goErrBeq e1 e2
  | .retryablePtr none, .retryablePtr none => true
  | .retryablePtr (some e1), .retryablePtr (some e2) => goErrBeq e1 e2
  | _, _ => false

/-- Error method of each modelled error value, as rendered by Go. -/
def errText : GoErr → String
  | .errorString msg => msg
  | .sentinel msg => msg
  | .deadlineExceeded => "context deadline exceeded"
  | .canceled => "context canceled"
  | .errServerClosed => "http: Server closed"
  | .errServerStopped => "grpc: the server has been stopped"
  | .wrapf msg _ => msg
  | .retryableVal none => "retry: <nil>"
  | .retryableVal (some inner) => "retry: " ++ errText inner
  | .retryablePtr none => "retry: <nil>"
  | .retryablePtr (some inner) => "retry: " ++ errText inner

/-- fmt.Errorf with a leading text and a single trailing %w verb:
fmt.Errorf("head: %w", e). The wrapped error is in the Unwrap chain. -/
def goWrap (head : String) (e : GoErr) : GoErr :=
  .wrapf (head ++ ": " ++ errText e) e

/-- ErrGracefullyShutdown of package servekit: per its own doc comment, "an
error message indicating the failure to gracefully shut down a listener". -/
def ErrGracefullyShutdown : GoErr := .sentinel "shut down listener gracefully"

/-- ErrRetryLimitReached of package retry. -/
def ErrRetryLimitReached : GoErr := .sentinel "retry limit reached"

/-- fmt.Errorf("%w: %s", ErrGracefullyShutdown, err.Error()): only the
sentinel is wrapped (%w); err is flattened into the message text (%s), so it
drops out of the Unwrap chain. -/
def wrapGraceful (e : GoErr) : GoErr :=
  .wrapf (errText ErrGracefullyShutdown ++ ": " ++ errText e) ErrGracefullyShutdown

/-- errors.Is(err, target): compare the current value with the target, then
follow Unwrap. Only `wrapf` and the retryable wrappers (with non-nil field)
have an Unwrap method in the source. -/
def errorsIs : GoErr → GoErr → Bool
  | .wrapf msg inner, target =>
      goErrBeq (.wrapf msg inner) target || errorsIs inner target
  | .retryableVal (some inner), target =>
      goErrBeq (.retryableVal (some inner)) target || errorsIs inner target
  | .retryablePtr (some inner), target =>
      goErrBeq (.retryablePtr (some inner)) target || errorsIs inner target
  | e, target => goErrBeq e target

/-- errors.As(err, &rErr) with `var rErr RetryableError` (a value, not a
pointer): a chain element matches only if its concrete type is the value
type `RetryableError`. A `*RetryableError` does not match; `errors.As` moves
on through its Unwrap method instead. -/
def errorsAsRetryableValue : GoErr → Bool
  | .retryableVal _ => true
  | .retryablePtr (some inner) => errorsAsRetryableValue inner
  | .retryablePtr none => false
  | .wrapf _ inner => errorsAsRetryableValue inner
  | _ => false

/-- tern.OP, the generic ternary operator of package tern. -/
def OP {α : Type} (cond : Bool) (t f : α) : α :=
  if cond then t else f

/-- retry.MarkRetryable: tern.OP[error](err == nil, nil, &RetryableError{err: err}). -/
def MarkRetryable (err : Option GoErr) : Option GoErr :=
  OP err.isNone none (some (.retryablePtr err))

/-- Loop body of retry.Do, recursing over the remaining attempt budget.
`i` is the loop index, `remaining = o.maxRetries - i`. `fn i` is the error
returned by the i-th invocation of the operation (`none` = success).
`topDone i` tells whether ctx.Done() is ready at the select at the top of
iteration i; `sleepCanceled i` tells whether, during the backoff sleep of
iteration i, ctx.Done() becomes ready before the timer fires. The backoff
duration itself does not influence control flow, only how long the timer
runs, so it is not a parameter of the model. The second component counts
the invocations of `fn` that were performed. -/
def doGo (fn : Nat → Option GoErr) (topDone sleepCanceled : Nat → Bool) :
    Nat → Nat → Option GoErr × Nat
  | _, 0 => (some ErrRetryLimitReached, 0)
  | i, remaining + 1 =>
    if topDone i then (some .canceled, 0)
    else
      match fn i with
      | none => (none, 1)
      | some err =>
        if errorsAsRetryableValue err then
          if sleepCanceled i then (some .canceled, 1)
          else
            let rest := doGo fn topDone sleepCanceled (i + 1) remaining
            (rest.1, rest.2 + 1)
        else (some err, 1)

/-- retry.Do with the oracle parameters described at `doGo`, starting at
loop index 0 with the configured attempt budget (default 3). -/
def retryDo (maxRetries : Nat) (fn : Nat → Option GoErr)
    (topDone sleepCanceled : Nat → Bool) : Option GoErr × Nat :=
  doGo fn topDone sleepCanceled 0 maxRetries

/-
Backoff strategies. The Go structs store float64 counts of milliseconds
(durations divided by time.Millisecond, an integer division, so the
constructor-produced fields are whole numbers); float64 arithmetic is
modelled over exact rationals. The jitter term is
float64(rand.Int64N(int64(b.maxJitterInterval))): rand.Int64N panics when
its argument is not positive, i.e. exactly when the float-to-int64
truncation of maxJitterInterval is ≤ 0, which for every real value is
equivalent to Int.floor maxJitterInterval ≤ 0. A `Next` call that panics is
modelled as `none`; otherwise the drawn jitter value is supplied by the
oracle parameter `jitterDraw`.
-/

/-- StaticBackoff is a bare duration; Next ignores the attempt number. -/
abbrev StaticBackoff := ℚ

/-- StaticBackoff.Next: return the fixed duration, for every attempt. -/
def StaticBackoff.Next (b : StaticBackoff) (_retry : Nat) : ℚ := b

/-- ExponentialBackoff configuration (fields in milliseconds; the
exponential factor comes from a uint constructor argument). -/
structure ExponentialBackoff where
  exponentialFactor : ℚ
  minBackoffInterval : ℚ
  maxBackoffInterval : ℚ
  maxJitterInterval : ℚ

/-- Pre-jitter value computed by ExponentialBackoff.Next: zero at attempt 0,
the max interval when min ≥ max (early return in the source), otherwise
math.Min(minBackoffInterval * factor ^ retry, maxBackoffInterval). -/
def ExponentialBackoff.preNext (b : ExponentialBackoff) (retry : Nat) : ℚ :=
  if retry = 0 then 0
  else if b.minBackoffInterval ≥ b.maxBackoffInterval then b.maxBackoffInterval
  else min (b.minBackoffInterval * b.exponentialFactor ^ retry) b.maxBackoffInterval

/-- ExponentialBackoff.Next. The jitter draw happens after the two early
returns, so with min ≥ max the function returns max without drawing (and
hence without the possibility of a panic). -/
def ExponentialBackoff.Next (b : ExponentialBackoff) (jitterDraw : ℚ)
    (retry : Nat) : Option ℚ :=
  if retry = 0 then some 0
  else if b.minBackoffInterval ≥ b.maxBackoffInterval then some b.maxBackoffInterval
  else if Int.floor b.maxJitterInterval ≤ 0 then none
  else some (min (b.minBackoffInterval * b.exponentialFactor ^ retry)
    b.maxBackoffInterval + jitterDraw)

/-- ConstantBackoff configuration (fields in milliseconds). -/
structure ConstantBackoff where
  minBackoffInterval : ℚ
  maxBackoffInterval : ℚ
  maxJitterInterval : ℚ

/-- ConstantBackoff.Next: zero at attempt 0; otherwise the jitter is drawn
(panicking when the bound is not positive) and added to
math.Min(minBackoffInterval, maxBackoffInterval). -/
def ConstantBackoff.Next (b : ConstantBackoff) (jitterDraw : ℚ)
    (retry : Nat) : Option ℚ :=
  if retry = 0 then some 0
  else if Int.floor b.maxJitterInterval ≤ 0 then none
  else some (min b.minBackoffInterval b.maxBackoffInterval + jitterDraw)

/-- LinearBackoff configuration (fields in milliseconds). -/
structure LinearBackoff where
  minBackoffInterval : ℚ
  maxBackoffInterval : ℚ
  maxJitterInterval : ℚ

/-- LinearBackoff.Next: zero at attempt 0; otherwise the jitter is drawn
(panicking when the bound is not positive) and added to
math.Min(minBackoffInterval * retry, maxBackoffInterval). -/
def LinearBackoff.Next (b : LinearBackoff) (jitterDraw : ℚ)
    (retry : Nat) : Option ℚ :=
  if retry = 0 then some 0
  else if Int.floor b.maxJitterInterval ≤ 0 then none
  else some (min (b.minBackoffInterval * (retry : ℚ)) b.maxBackoffInterval + jitterDraw)

/-
Listener models. The per-listener shutdown coordination of
http_listener.go and grpc_listener.go is embedded with oracle parameters:
`inTime` — whether the orderly stop finishes before the 5s shutdown
deadline; `shutdownErr` — the error the orderly-stop primitive itself
returns when it does finish in time; `serveRes` — the error the underlying
accept/serve loop returns; `shutdownFirst` — which goroutine's error
errgroup.Wait reports when both are non-nil. The `Serve` models cover the
code paths after the context passed to Serve has been cancelled or the
serve loop has returned; both goroutines have then terminated, which is
when errgroup.Wait returns.
-/

/-- Transport primitives invoked during a listener's shutdown sequence:
`orderly` — the orderly-stop primitive (http.Server.Shutdown /
grpc.Server.GracefulStop); `forced` — the forced-termination primitive
(http.Server.Close / grpc.Server.Stop). -/
structure ShutdownActions where
  orderly : Bool
  forced : Bool

/-- ListenerHTTP.handleShutdown after ctx.Done() fired: calls
l.server.Shutdown(shutdownCtx) inside an errgroup. When the deadline
elapses first, Shutdown returns shutdownCtx.Err() = context.DeadlineExceeded
and no other primitive is called — the source has no http.Server.Close
call, so `forced` is always false. A non-nil group error is wrapped as
fmt.Errorf("%w: %s", ErrGracefullyShutdown, err.Error()). -/
def handleShutdownHTTP (inTime : Bool) (shutdownErr : Option GoErr) :
    ShutdownActions × Option GoErr :=
  let shutdownRes : Option GoErr := if inTime then shutdownErr else some .deadlineExceeded
  let groupErr : Option GoErr :=
    match shutdownRes with
    | none => none
    | some e => some (goWrap "shutdown HTTP server" e)
  ⟨⟨true, false⟩,
    match groupErr with
    | none => none
    | some e => some (wrapGraceful e)⟩

/-- Serve-loop goroutine of ListenerHTTP.Serve: a non-nil error from
ListenAndServe is dropped when it is http.ErrServerClosed (the normal
return after Shutdown), otherwise wrapped as "listener failed: %w". -/
def serveGoroutineHTTP (serveRes : Option GoErr) : Option GoErr :=
  match serveRes with
  | none => none
  | some e => if errorsIs e .errServerClosed then none else some (goWrap "listener failed" e)

/-- errgroup.Wait over two goroutines: nil when both returned nil,
otherwise the error of whichever non-nil goroutine returned first
(decided by the scheduling oracle `aFirst` when both are non-nil). -/
def mergeWait (a b : Option GoErr) (aFirst : Bool) : Option GoErr :=
  match a, b with
  | none, e => e
  | some x, none => some x
  | some x, some y => some (if aFirst then x else y)

/-- ListenerHTTP.Serve: empty address fails fast; then the shutdown handler
and the serve loop run in an errgroup, and a non-nil Wait result is wrapped
as fmt.Errorf("%w: %s", ErrGracefullyShutdown, err.Error()); a nil Wait
result makes Serve return nil. -/
def listenerHTTPServe (addr : String) (serveRes : Option GoErr) (inTime : Bool)
    (shutdownErr : Option GoErr) (shutdownFirst : Bool) : Option GoErr :=
  if addr = "" then some (.errorString ("invalid listener address: " ++ addr))
  else
    match mergeWait (handleShutdownHTTP inTime shutdownErr).2
        (serveGoroutineHTTP serveRes) shutdownFirst with
    | none => none
    | some e => some (wrapGraceful e)

/-- ListenerGRPC.handleShutdown after ctx.Done() fired: GracefulStop races
against the 5s deadline; when the deadline wins, `go l.server.Stop()` is
issued (forced = true) and the goroutine returns
fmt.Errorf("shutdown gRPC listener: %w", shutdownCtx.Err()), which
handleShutdown then wraps as fmt.Errorf("%w: %s", ErrGracefullyShutdown, ...).
GracefulStop returns no error, so the in-time branch yields nil. -/
def handleShutdownGRPC (inTime : Bool) : ShutdownActions × Option GoErr :=
  if inTime then ⟨⟨true, false⟩, none⟩
  else ⟨⟨true, true⟩, some (wrapGraceful (goWrap "shutdown gRPC listener" .deadlineExceeded))⟩

/-- Serve-loop goroutine of ListenerGRPC.Serve: a non-nil error from
grpc.Server.Serve is dropped when it is grpc.ErrServerStopped, otherwise
wrapped as "gRPC listener failed: %w". -/
def serveGoroutineGRPC (serveRes : Option GoErr) : Option GoErr :=
  match serveRes with
  | none => none
  | some e => if errorsIs e .errServerStopped then none else some (goWrap "gRPC listener failed" e)

/-- Terminal behaviour of a Serve call: a returned error value, or a panic. -/
inductive ServeOutcome where
  | ret (e : Option GoErr)
  | panicked (e : GoErr)

/-- ListenerGRPC.Serve: after errgroup.Wait, a non-nil error that satisfies
errors.Is(err, ErrGracefullyShutdown) makes Serve panic(err); any other
non-nil error is returned wrapped as "serve: %w"; nil is returned as nil.
Also records which shutdown primitives were invoked. -/
def listenerGRPCServe (serveRes : Option GoErr) (inTime : Bool)
    (shutdownFirst : Bool) : ShutdownActions × ServeOutcome :=
  let hs := handleShutdownGRPC inTime
  ⟨hs.1,
    match mergeWait hs.2 (serveGoroutineGRPC serveRes) shutdownFirst with
    | none => .ret none
    | some e =>
        if errorsIs e ErrGracefullyShutdown then .panicked e
        else .ret (some (goWrap "serve" e))⟩

/-
Supervising server (server.go). A registered listener is identified by its
name; for the purposes of Server.Serve only the error its Serve method
returns matters, so the registry snapshot is a list of name/result pairs,
ordered by the scheduling of goroutine completions.
-/

/-- Goroutine body launched by Server.Serve for one listener: a non-nil
Serve result is wrapped as fmt.Errorf("listener %s failed: %w", name, err). -/
def serverGoResult (name : String) (res : Option GoErr) : Option GoErr :=
  match res with
  | none => none
  | some e => some (goWrap ("listener " ++ name ++ " failed") e)

/-- errgroup.Wait over all listener goroutines: the first non-nil error in
completion order, or nil. -/
def serverWait (listeners : List (String × Option GoErr)) : Option GoErr :=
  match listeners with
  | [] => none
  | (name, res) :: rest =>
    match serverGoResult name res with
    | some e => some e
    | none => serverWait rest

/-- Server.Serve: waits for all listener goroutines; a non-nil aggregate
error is only logged ("Server failed") — the function then returns nil on
every path (the final statement of the source is an unconditional
`return nil`). -/
def serverServe (listeners : List (String × Option GoErr)) : Option GoErr :=
  match serverWait listeners with
  | some _ => none
  | none => none

/-- Server.RegisterListener: `s.listeners[name] = listener` on the
mutex-guarded map — an unconditional store, with no error return. The
registry is modelled as a partial map from names. -/
def RegisterListener {α : Type} (reg : String → Option α) (name : String)
    (listener : α) : String → Option α :=
  fun n => if n = name then some listener else reg n

/-- The error value produced by the HTTP shutdown path on a deadline
overrun: handleShutdown wraps the deadline error once as
fmt.Errorf("%w: %s", ErrGracefullyShutdown, "shutdown HTTP server: ..."),
and Serve wraps that group error the same way once more. -/
def httpDeadlineFinal : GoErr :=
  wrapGraceful (wrapGraceful (goWrap "shutdown HTTP server" .deadlineExceeded))

/-- Exponential configuration used by the C7 witness. -/
def ebSample : ExponentialBackoff := ⟨2, 50, 1000, 50⟩

/-- Operation used by the C8 witness: always fails with a retryable-detected
error. -/
def c8fn : Nat → Option GoErr := fun _ => some (.retryableVal (some (.errorString "x")))

/-- Context oracle used by the C8 witness: never done at a loop top. -/
def c8top : Nat → Bool := fun _ => false

/-- Context oracle used by the C8 witness: cancelled during every sleep. -/
def c8sleep : Nat → Bool := fun _ => true

/-- Constant configuration with zero jitter, used by the C10 witness. -/
def cbZeroJitter : ConstantBackoff := ⟨50, 1000, 0⟩

/-- Linear configuration with zero jitter, used by the C10 witness. -/
def lbZeroJitter : LinearBackoff := ⟨50, 1000, 0⟩

/-- Exponential configuration with zero jitter, used by the C10 witness. -/
def ebZeroJitter : ExponentialBackoff := ⟨2, 50, 1000, 0⟩

/-- Every error built by wrapGraceful satisfies
errors.Is(err, ErrGracefullyShutdown). -/
theorem errorsIs_wrapGraceful (e : GoErr) :
    errorsIs (wrapGraceful e) ErrGracefullyShutdown = true := by
  simp [wrapGraceful, errorsIs, goErrBeq, ErrGracefullyShutdown]

/-- C1: evaluation of Server.Serve at the failing input. With a single
registered listener whose Serve returns a plain transport error, the
errgroup does observe the wrapped listener error, but Server.Serve still
returns nil: the aggregate error is logged and then dropped, for every
registry content. This contradicts both the spec and Serve's own doc
comment ("returns any error encountered during serving"). -/
theorem serverServeSwallowsFailures :
    serverWait [("http", some (.errorString "boom"))] =
      some (goWrap "listener http failed" (.errorString "boom"))
    ∧ serverServe [("http", some (.errorString "boom"))] = none
    ∧ ∀ listeners, serverServe listeners = none := by
  refine ⟨rfl, rfl, fun listeners => ?_⟩
  cases h : serverWait listeners <;> simp [serverServe, h]

/-- C2: evaluation of retry.Do at the failing input. MarkRetryable wraps an
error in the pointer type *RetryableError, but Do checks
errors.As(err, &rErr) against the value type RetryableError, which never
matches the pointer; so an operation that always returns a MarkRetryable
error is invoked exactly once and its error is returned verbatim — not
invoked maxAttempts (3) times with ErrRetryLimitReached returned, as the
doc comments of Do and MarkRetryable describe. An operation returning the
value form RetryableError (never produced by MarkRetryable) shows that the
rest of the loop implements the documented behaviour. -/
theorem retryDoNeverRetriesMarkedErrors :
    MarkRetryable (some (.errorString "boom")) =
      some (.retryablePtr (some (.errorString "boom")))
    ∧ errorsAsRetryableValue (.retryablePtr (some (.errorString "boom"))) = false
    ∧ retryDo 3 (fun _ => MarkRetryable (some (.errorString "boom")))
        (fun _ => false) (fun _ => false) =
        (some (.retryablePtr (some (.errorString "boom"))), 1)
    ∧ retryDo 3 (fun _ => some (.retryableVal (some (.errorString "boom"))))
        (fun _ => false) (fun _ => false) = (some ErrRetryLimitReached, 3) :=
  ⟨rfl, rfl, rfl, rfl⟩

/-- C6 counterexample: the claim says every strategy yields a zero delay at
attempt 0, but StaticBackoff.Next ignores the attempt number and returns
its configured duration — here 5ms at attempt 0. -/
theorem staticBackoffNonzeroAtAttemptZero :
    StaticBackoff.Next (5 : StaticBackoff) 0 = 5 ∧ (5 : ℚ) ≠ 0 :=
  ⟨rfl, by norm_num⟩

/-- C6 amended: the constant, linear and exponential strategies yield a
zero delay at attempt 0; the static strategy instead returns its fixed
configured duration at every attempt, including attempt 0. -/
theorem backoffAttemptZero (cb : ConstantBackoff) (lb : LinearBackoff)
    (eb : ExponentialBackoff) (j1 j2 j3 : ℚ) (d : StaticBackoff) (n : Nat) :
    cb.Next j1 0 = some 0 ∧ lb.Next j2 0 = some 0 ∧ eb.Next j3 0 = some 0
    ∧ StaticBackoff.Next d n = d :=
  ⟨rfl, rfl, rfl, rfl⟩

/-- C3 counterexample: with the context cancelled and the orderly stop
completing within the deadline (Shutdown returns nil; the serve loop winds
up with http.ErrServerClosed), ListenerHTTP.Serve returns nil — not a
non-nil error wrapping the graceful-shutdown sentinel, as the claim
states. -/
theorem cleanShutdownNotSentinelWrapped :
    listenerHTTPServe ":8080" (some .errServerClosed) true none true = none
    ∧ ¬ ∃ r, listenerHTTPServe ":8080" (some .errServerClosed) true none true = some r
        ∧ errorsIs r ErrGracefullyShutdown = true := by
  refine ⟨rfl, ?_⟩
  rintro ⟨r, hr, -⟩
  rw [show listenerHTTPServe ":8080" (some .errServerClosed) true none true = none
    from rfl] at hr
  exact Option.noConfusion hr

/-- C3 amended: when the context passed to Serve is cancelled and the
orderly stop completes within the deadline, Serve returns nil — a clean,
requested stop is signalled by a nil error, for the HTTP and the gRPC
listener alike. The fixed sentinel ErrGracefullyShutdown instead marks
failure: every non-nil error ListenerHTTP.Serve returns (for a non-empty
address) wraps it. -/
theorem listenerServeCleanStopNil (addr : String) (serveRes : Option GoErr)
    (sf : Bool) (h1 : addr ≠ "") (h2 : serveGoroutineHTTP serveRes = none) :
    listenerHTTPServe addr serveRes true none sf = none
    ∧ (∀ (sr2 sd : Option GoErr) (inT : Bool) (r : GoErr),
        listenerHTTPServe addr sr2 inT sd sf = some r →
        errorsIs r ErrGracefullyShutdown = true)
    ∧ (∀ srg, serveGoroutineGRPC srg = none →
        (listenerGRPCServe srg true sf).2 = .ret none) := by
  refine ⟨?_, ?_, ?_⟩
  · unfold listenerHTTPServe
    rw [if_neg h1, h2]
    rfl
  · intro sr2 sd inT r h
    unfold listenerHTTPServe at h
    rw [if_neg h1] at h
    cases hm : mergeWait (handleShutdownHTTP inT sd).2 (serveGoroutineHTTP sr2) sf with
    | none => simp [hm] at h
    | some e =>
      simp only [hm, Option.some.injEq] at h
      subst h
      exact errorsIs_wrapGraceful e
  · intro srg hg
    unfold listenerGRPCServe
    rw [hg]
    rfl

/-- C3 witness: the clean-shutdown scenario at a concrete address and serve
result. -/
theorem listenerServeCleanStopNilWitness :
    (":8080" ≠ "" ∧ serveGoroutineHTTP (some .errServerClosed) = none)
    ∧ (listenerHTTPServe ":8080" (some .errServerClosed) true none true = none
      ∧ (∀ (sr2 sd : Option GoErr) (inT : Bool) (r : GoErr),
          listenerHTTPServe ":8080" sr2 inT sd true = some r →
          errorsIs r ErrGracefullyShutdown = true)
      ∧ (∀ srg, serveGoroutineGRPC srg = none →
          (listenerGRPCServe srg true true).2 = .ret none)) :=
  ⟨⟨by decide, rfl⟩,
    listenerServeCleanStopNil ":8080" (some .errServerClosed) true (by decide) rfl⟩

/-- C4 counterexample: on a shutdown-deadline overrun the HTTP listener
invokes no forced-termination primitive (the source has no
http.Server.Close call), and the outcome of Serve does not wrap the
deadline-exceeded error: the %s verb flattens it into the message, so
errors.Is against context.DeadlineExceeded is false. -/
theorem httpShutdownDeadlineClaimFails :
    (handleShutdownHTTP false none).1.forced = false
    ∧ listenerHTTPServe ":8080" (some .errServerClosed) false none true =
        some httpDeadlineFinal
    ∧ errorsIs httpDeadlineFinal GoErr.deadlineExceeded = false :=
  ⟨rfl, rfl, rfl⟩

/-- C4 amended: when the orderly stop does not complete before the
deadline, the HTTP listener calls only the orderly-stop primitive and never
a forced one; Serve returns a shutdown failure wrapping the
ErrGracefullyShutdown sentinel whose message carries the deadline-exceeded
text, while the deadline error itself is absent from the unwrap chain. The
gRPC listener, by contrast, does invoke the forced stop (grpc.Server.Stop)
and reports the analogous sentinel-wrapped failure from handleShutdown. -/
theorem httpShutdownDeadlineNoForce (sd : Option GoErr) (addr : String)
    (serveRes : Option GoErr) (sf : Bool) (h1 : addr ≠ "")
    (h2 : serveGoroutineHTTP serveRes = none) :
    (handleShutdownHTTP false sd).1.orderly = true
    ∧ (handleShutdownHTTP false sd).1.forced = false
    ∧ listenerHTTPServe addr serveRes false sd sf = some httpDeadlineFinal
    ∧ errorsIs httpDeadlineFinal ErrGracefullyShutdown = true
    ∧ errorsIs httpDeadlineFinal GoErr.deadlineExceeded = false
    ∧ errText httpDeadlineFinal =
        "shut down listener gracefully: shut down listener gracefully: shutdown HTTP server: context deadline exceeded"
    ∧ (handleShutdownGRPC false).1.forced = true
    ∧ (handleShutdownGRPC false).2 =
        some (wrapGraceful (goWrap "shutdown gRPC listener" .deadlineExceeded)) := by
  refine ⟨rfl, rfl, ?_, rfl, rfl, rfl, rfl, rfl⟩
  unfold listenerHTTPServe
  rw [if_neg h1, h2]
  rfl

/-- C4 witness: the deadline-overrun scenario at concrete inputs. -/
theorem httpShutdownDeadlineNoForceWitness :
    (":8080" ≠ "" ∧ serveGoroutineHTTP (some .errServerClosed) = none)
    ∧ ((handleShutdownHTTP false none).1.orderly = true
      ∧ (handleShutdownHTTP false none).1.forced = false
      ∧ listenerHTTPServe ":8080" (some .errServerClosed) false none true =
          some httpDeadlineFinal
      ∧ errorsIs httpDeadlineFinal ErrGracefullyShutdown = true
      ∧ errorsIs httpDeadlineFinal GoErr.deadlineExceeded = false
      ∧ errText httpDeadlineFinal =
          "shut down listener gracefully: shut down listener gracefully: shutdown HTTP server: context deadline exceeded"
      ∧ (handleShutdownGRPC false).1.forced = true
      ∧ (handleShutdownGRPC false).2 =
          some (wrapGraceful (goWrap "shutdown gRPC listener" .deadlineExceeded))) :=
  ⟨⟨by decide, rfl⟩,
    httpShutdownDeadlineNoForce none ":8080" (some .errServerClosed) true
      (by decide) rfl⟩

/-- C5 counterexample: on a shutdown-deadline overrun the gRPC listener's
Serve does not return the deadline outcome — errors.Is(err,
ErrGracefullyShutdown) holds for it, so Serve panics with it instead. -/
theorem grpcShutdownDeadlinePanics :
    (listenerGRPCServe (some .errServerStopped) false true).2 =
      .panicked (wrapGraceful (goWrap "shutdown gRPC listener" .deadlineExceeded)) :=
  rfl

/-- C5 amended: when the orderly stop does not finish within the deadline,
the HTTP listener returns the shutdown-deadline outcome to the caller of
Serve as a non-nil error value; the gRPC listener instead panics with that
outcome, so its Serve never returns it. -/
theorem shutdownDeadlineSurfacing (addr : String)
    (serveResH serveResG sd : Option GoErr) (sf sfg : Bool) (h1 : addr ≠ "")
    (h2 : serveGoroutineHTTP serveResH = none)
    (h3 : serveGoroutineGRPC serveResG = none) :
    listenerHTTPServe addr serveResH false sd sf = some httpDeadlineFinal
    ∧ (listenerGRPCServe serveResG false sfg).2 =
        .panicked (wrapGraceful (goWrap "shutdown gRPC listener" .deadlineExceeded)) := by
  constructor
  · unfold listenerHTTPServe
    rw [if_neg h1, h2]
    rfl
  · unfold listenerGRPCServe
    rw [h3]
    rfl

/-- C5 witness: the deadline-overrun scenario at concrete inputs for both
listeners. -/
theorem shutdownDeadlineSurfacingWitness :
    (":8080" ≠ "" ∧ serveGoroutineHTTP (some .errServerClosed) = none
      ∧ serveGoroutineGRPC (some .errServerStopped) = none)
    ∧ (listenerHTTPServe ":8080" (some .errServerClosed) false none true =
        some httpDeadlineFinal
      ∧ (listenerGRPCServe (some .errServerStopped) false true).2 =
          .panicked (wrapGraceful (goWrap "shutdown gRPC listener" .deadlineExceeded))) :=
  ⟨⟨by decide, rfl, rfl⟩,
    shutdownDeadlineSurfacing ":8080" (some .errServerClosed)
      (some .errServerStopped) none true true (by decide) rfl rfl⟩

/-- C9: registering a second listener under an already-used name silently
overwrites the previous entry — the registry then maps the name to the new
listener, and every other name is untouched. RegisterListener has no error
return in the source, so no error can be reported. -/
theorem registerListenerLastWriteWins {α : Type} (reg : String → Option α)
    (name : String) (l1 l2 : α) :
    RegisterListener (RegisterListener reg name l1) name l2 name = some l2
    ∧ ∀ n, n ≠ name →
        RegisterListener (RegisterListener reg name l1) name l2 n = reg n := by
  refine ⟨by simp [RegisterListener], fun n hn => ?_⟩
  simp [RegisterListener, hn]

/-- C9 witness: the double registration evaluated on a concrete registry. -/
theorem registerListenerLastWriteWinsWitness :
    ("grpc" ≠ "http" ∧
      RegisterListener (RegisterListener (fun _ => (none : Option Nat)) "http" 1)
        "http" 2 "http" = some 2)
    ∧ RegisterListener (RegisterListener (fun _ => (none : Option Nat)) "http" 1)
        "http" 2 "grpc" = none :=
  ⟨⟨by decide,
      (registerListenerLastWriteWins (fun _ => (none : Option Nat)) "http" 1 2).1⟩,
    (registerListenerLastWriteWins (fun _ => (none : Option Nat)) "http" 1 2).2
      "grpc" (by decide)⟩

/-- C7 counterexample: with exponential factor 1 the pre-jitter value of
Next is the same at attempts 1 and 2 while still strictly below the max
interval — it does not strictly increase until clamped. -/
theorem exponentialFactorOneNotStrictlyIncreasing :
    ExponentialBackoff.preNext ⟨1, 50, 1000, 50⟩ 1 =
      ExponentialBackoff.preNext ⟨1, 50, 1000, 50⟩ 2
    ∧ ExponentialBackoff.preNext ⟨1, 50, 1000, 50⟩ 1 = 50
    ∧ (50 : ℚ) < 1000 := by
  norm_num [ExponentialBackoff.preNext]

/-- C7 amended: for attempts n ≥ 1 the pre-jitter value of exponential
Next equals min(minInterval × factor^n, maxInterval) whenever
minInterval < maxInterval; when minInterval ≥ maxInterval an early return
yields maxInterval instead. The pre-jitter value strictly increases with n
until clamped at maxInterval provided the factor is at least 2 and
minInterval is positive (with factor 1 it stays constant). -/
theorem exponentialPreJitterBehaviour (b : ExponentialBackoff) (n : Nat)
    (h1 : 1 ≤ n) :
    (b.minBackoffInterval < b.maxBackoffInterval →
      b.preNext n =
        min (b.minBackoffInterval * b.exponentialFactor ^ n) b.maxBackoffInterval)
    ∧ (b.maxBackoffInterval ≤ b.minBackoffInterval →
        b.preNext n = b.maxBackoffInterval)
    ∧ (0 < b.minBackoffInterval → 2 ≤ b.exponentialFactor →
        b.minBackoffInterval < b.maxBackoffInterval →
        b.preNext n < b.maxBackoffInterval → b.preNext n < b.preNext (n + 1)) := by
  have hn : n ≠ 0 := by omega
  refine ⟨?_, ?_, ?_⟩
  · intro hlt
    simp [ExponentialBackoff.preNext, hn, hlt.not_le]
  · intro hle
    simp [ExponentialBackoff.preNext, hn, hle]
  · intro hmin hf hlt hcl
    have hfpos : (0 : ℚ) < b.exponentialFactor := lt_of_lt_of_le two_pos hf
    have hA : 0 < b.minBackoffInterval * b.exponentialFactor ^ n :=
      mul_pos hmin (pow_pos hfpos n)
    have hpn : b.preNext n =
        min (b.minBackoffInterval * b.exponentialFactor ^ n) b.maxBackoffInterval := by
      simp [ExponentialBackoff.preNext, hn, hlt.not_le]
    have hpn1 : b.preNext (n + 1) =
        min (b.minBackoffInterval * b.exponentialFactor ^ (n + 1)) b.maxBackoffInterval := by
      simp [ExponentialBackoff.preNext, hlt.not_le]
    have hAlt : b.minBackoffInterval * b.exponentialFactor ^ n < b.maxBackoffInterval := by
      by_contra hcon
      push_neg at hcon
      rw [hpn, min_eq_right hcon] at hcl
      exact lt_irrefl _ hcl
    rw [hpn, min_eq_left hAlt.le, hpn1]
    refine lt_min ?_ hAlt
    rw [pow_succ, ← mul_assoc]
    have hone : 1 < b.exponentialFactor := lt_of_lt_of_le one_lt_two hf
    exact lt_mul_right hA hone

/-- C7 witness: the amended statement instantiated at factor 2, min 50ms,
max 1000ms, attempt 1. -/
theorem exponentialPreJitterBehaviourWitness :
    1 ≤ 1
    ∧ ((ebSample.minBackoffInterval < ebSample.maxBackoffInterval →
        ebSample.preNext 1 =
          min (ebSample.minBackoffInterval * ebSample.exponentialFactor ^ 1)
            ebSample.maxBackoffInterval)
      ∧ (ebSample.maxBackoffInterval ≤ ebSample.minBackoffInterval →
          ebSample.preNext 1 = ebSample.maxBackoffInterval)
      ∧ (0 < ebSample.minBackoffInterval → 2 ≤ ebSample.exponentialFactor →
          ebSample.minBackoffInterval < ebSample.maxBackoffInterval →
          ebSample.preNext 1 < ebSample.maxBackoffInterval →
          ebSample.preNext 1 < ebSample.preNext (1 + 1))) :=
  ⟨by decide, exponentialPreJitterBehaviour ebSample 1 (by decide)⟩

/-- Helper for C8: running the retry loop from index s with budget r, when
every earlier iteration saw a retryable error and an uncancelled sleep, the
context not yet done at any loop top, and the sleep of relative iteration i
is interrupted by cancellation, the loop returns ctx.Err() with exactly
i + 1 invocations performed. -/
theorem doGoCancel (fn : Nat → Option GoErr) (topDone sleepCanceled : Nat → Bool) :
    ∀ (i s r : Nat), i < r →
      (∀ k, k ≤ i → topDone (s + k) = false) →
      (∀ k, k < i → ∃ e, fn (s + k) = some e ∧ errorsAsRetryableValue e = true
        ∧ sleepCanceled (s + k) = false) →
      (∃ e, fn (s + i) = some e ∧ errorsAsRetryableValue e = true) →
      sleepCanceled (s + i) = true →
      doGo fn topDone sleepCanceled s r = (some GoErr.canceled, i + 1) := by
  intro i
  induction i with
  | zero =>
    intro s r hr htop hprev hcur hsl
    obtain ⟨e, hfe, hret⟩ := hcur
    obtain ⟨r1, rfl⟩ : ∃ r1, r = r1 + 1 := ⟨r - 1, by omega⟩
    have ht0 : topDone s = false := by simpa using htop 0 (Nat.le_refl 0)
    have hsl0 : sleepCanceled s = true := by simpa using hsl
    have hfe0 : fn s = some e := by simpa using hfe
    simp [doGo, ht0, hfe0, hret, hsl0]
  | succ i ih =>
    intro s r hr htop hprev hcur hsl
    obtain ⟨r1, rfl⟩ : ∃ r1, r = r1 + 1 := ⟨r - 1, by omega⟩
    have ht0 : topDone s = false := by simpa using htop 0 (by omega)
    obtain ⟨e0, hf0, hr0, hs0⟩ := hprev 0 (by omega)
    have hf0s : fn s = some e0 := by simpa using hf0
    have hs0s : sleepCanceled s = false := by simpa using hs0
    have hrec := ih (s + 1) r1 (by omega)
      (fun k hk => by
        have h := htop (k + 1) (by omega)
        rwa [show s + (k + 1) = s + 1 + k by omega] at h)
      (fun k hk => by
        have h := hprev (k + 1) (by omega)
        rwa [show s + (k + 1) = s + 1 + k by omega] at h)
      (by
        have h := hcur
        rwa [show s + (i + 1) = s + 1 + i by omega] at h)
      (by
        have h := hsl
        rwa [show s + (i + 1) = s + 1 + i by omega] at h)
    simp [doGo, ht0, hf0s, hr0, hs0s, hrec]

/-- C8: if, at some loop iteration i within the attempt budget, the
operation has so far always produced a retryable-detected error, no sleep
was interrupted before, the context was never observed done at a loop top,
and the context is cancelled during the sleep of iteration i, then retry.Do
returns the context's cancellation error — which is not the
retry-limit-exceeded error — after exactly i + 1 invocations of the
operation, so no further attempts are performed. -/
theorem retryDoCancelDuringSleep (maxRetries i : Nat) (fn : Nat → Option GoErr)
    (topDone sleepCanceled : Nat → Bool) (hir : i < maxRetries)
    (htop : ∀ k, k ≤ i → topDone k = false)
    (hprev : ∀ k, k < i → ∃ e, fn k = some e ∧ errorsAsRetryableValue e = true
      ∧ sleepCanceled k = false)
    (hcur : ∃ e, fn i = some e ∧ errorsAsRetryableValue e = true)
    (hcancel : sleepCanceled i = true) :
    retryDo maxRetries fn topDone sleepCanceled = (some GoErr.canceled, i + 1)
    ∧ GoErr.canceled ≠ ErrRetryLimitReached := by
  constructor
  · have h := doGoCancel fn topDone sleepCanceled i 0 maxRetries hir
      (fun k hk => by simpa using htop k hk)
      (fun k hk => by simpa using hprev k hk)
      (by simpa using hcur)
      (by simpa using hcancel)
    simpa [retryDo] using h
  · intro h
    simp [ErrRetryLimitReached] at h

/-- C8 witness: cancellation during the first sleep returns ctx.Err() after
exactly one invocation, with an attempt budget of 3. -/
theorem retryDoCancelDuringSleepWitness :
    (0 < 3 ∧ c8sleep 0 = true)
    ∧ (retryDo 3 c8fn c8top c8sleep = (some GoErr.canceled, 0 + 1)
      ∧ GoErr.canceled ≠ ErrRetryLimitReached) :=
  ⟨⟨by decide, rfl⟩,
    retryDoCancelDuringSleep 3 0 c8fn c8top c8sleep (by decide)
      (fun _ _ => rfl)
      (fun k hk => absurd hk (Nat.not_lt_zero k))
      ⟨.retryableVal (some (.errorString "x")), rfl, rfl⟩
      rfl⟩

/-- C10 counterexample: the exponential strategy with zero jitter bound and
minInterval ≥ maxInterval returns a duration at attempt 1 — its early
return fires before the jitter draw, so Next is total there, contrary to
the claim that a zero jitter bound makes the draw panic for all three
strategies. -/
theorem exponentialZeroJitterTotalWhenMinGeMax :
    ExponentialBackoff.Next ⟨2, 5, 5, 0⟩ 0 1 = some 5 := by
  norm_num [ExponentialBackoff.Next]

/-- C10 amended: for attempts n ≥ 1, the constant and linear strategies
reach the jitter draw unconditionally, so they panic exactly when the
jitter bound truncates to a non-positive int64 (e.g. a zero jitter
argument) and return a duration otherwise; the exponential strategy panics
under the same condition only when additionally minInterval < maxInterval —
with minInterval ≥ maxInterval it returns maxInterval before the draw, so
it is total even with a zero jitter bound. -/
theorem backoffJitterPanicBehaviour (cb : ConstantBackoff) (lb : LinearBackoff)
    (eb : ExponentialBackoff) (j : ℚ) (n : Nat) (hn : 1 ≤ n) :
    (Int.floor cb.maxJitterInterval ≤ 0 → cb.Next j n = none)
    ∧ (0 < Int.floor cb.maxJitterInterval → (cb.Next j n).isSome = true)
    ∧ (Int.floor lb.maxJitterInterval ≤ 0 → lb.Next j n = none)
    ∧ (0 < Int.floor lb.maxJitterInterval → (lb.Next j n).isSome = true)
    ∧ (Int.floor eb.maxJitterInterval ≤ 0 →
        eb.minBackoffInterval < eb.maxBackoffInterval → eb.Next j n = none)
    ∧ (eb.maxBackoffInterval ≤ eb.minBackoffInterval →
        eb.Next j n = some eb.maxBackoffInterval) := by
  have hn0 : n ≠ 0 := by omega
  refine ⟨fun h => ?_, fun h => ?_, fun h => ?_, fun h => ?_,
    fun h hlt => ?_, fun h => ?_⟩
  · simp [ConstantBackoff.Next, hn0, h]
  · simp [ConstantBackoff.Next, hn0, not_le.mpr h]
  · simp [LinearBackoff.Next, hn0, h]
  · simp [LinearBackoff.Next, hn0, not_le.mpr h]
  · simp [ExponentialBackoff.Next, hn0, h, hlt.not_le]
  · simp [ExponentialBackoff.Next, hn0, h]

/-- C10 witness: the amended statement instantiated at zero-jitter
configurations and attempt 1. -/
theorem backoffJitterPanicBehaviourWitness :
    1 ≤ 1
    ∧ ((Int.floor cbZeroJitter.maxJitterInterval ≤ 0 → cbZeroJitter.Next 0 1 = none)
      ∧ (0 < Int.floor cbZeroJitter.maxJitterInterval →
          (cbZeroJitter.Next 0 1).isSome = true)
      ∧ (Int.floor lbZeroJitter.maxJitterInterval ≤ 0 → lbZeroJitter.Next 0 1 = none)
      ∧ (0 < Int.floor lbZeroJitter.maxJitterInterval →
          (lbZeroJitter.Next 0 1).isSome = true)
      ∧ (Int.floor ebZeroJitter.maxJitterInterval ≤ 0 →
          ebZeroJitter.minBackoffInterval < ebZeroJitter.maxBackoffInterval →
          ebZeroJitter.Next 0 1 = none)
      ∧ (ebZeroJitter.maxBackoffInterval ≤ ebZeroJitter.minBackoffInterval →
          ebZeroJitter.Next 0 1 = some ebZeroJitter.maxBackoffInterval)) :=
  ⟨by decide,
    backoffJitterPanicBehaviour cbZeroJitter lbZeroJitter ebZeroJitter 0 1 (by decide)⟩
